import Mathlib

/-!
Verification of the feature-engineering and risk-scoring pipeline of the
Student-Mental-Health-Diagnoser repository (api/preprocessor.py,
api/predictor.py, api/main.py).

Python dictionaries of the form `Dict[str, Any]` are embedded as association
lists over a two-constructor dynamic value type `PyVal` (rational numbers and
strings are the only value shapes the pipeline manipulates). Python exceptions
are embedded as `Option`/`Except` failures: an arithmetic or comparison
operation on a string raises `TypeError` in Python and returns `none` here;
`float()` on a value that cannot be coerced raises `ValueError` and returns
`none` here. Machine floats are modelled by exact rationals: every constant
in the source is a short decimal and every claim concerns order comparisons
and exact decimal arithmetic, none of which depend on binary rounding.
-/

/-- Dynamic value of a Python dict entry: the pipeline only ever stores
numbers and strings. -/
inductive PyVal where
  | num (q : ℚ)
  | str (s : String)
deriving DecidableEq

/-- A Python `Dict[str, Any]` as an association list (insertion order kept,
first binding wins as in a dict without duplicate keys). -/
abbrev RawData := List (String × PyVal)

/-- Python `data.get(key, default)`. -/
def pyGet (data : RawData) (key : String) (default : PyVal) : PyVal :=
  (List.lookup key data).getD default

/-- Python `v >= q` for a threshold rational `q`: raises `TypeError`
(returns `none`) if `v` is a string. -/
def pyGE (v : PyVal) (q : ℚ) : Option Bool :=
  match v with
  | .num x => some (decide (q ≤ x))
  | .str _ => none

/-- Python `v <= q`: raises (returns `none`) if `v` is a string. -/
def pyLE (v : PyVal) (q : ℚ) : Option Bool :=
  match v with
  | .num x => some (decide (x ≤ q))
  | .str _ => none

/-- Python `v > q`: raises (returns `none`) if `v` is a string. -/
def pyGT (v : PyVal) (q : ℚ) : Option Bool :=
  match v with
  | .num x => some (decide (q < x))
  | .str _ => none

/-- Python `v < q`: raises (returns `none`) if `v` is a string. -/
def pyLT (v : PyVal) (q : ℚ) : Option Bool :=
  match v with
  | .num x => some (decide (x < q))
  | .str _ => none

/-- Python `v == s` for a string literal `s`: equality between a number and a
string is `False`, never an error. -/
def pyEqStr (v : PyVal) (s : String) : Bool :=
  match v with
  | .str t => t == s
  | .num _ => false

/-- Rendering of a value inside an f-string. Numeric rendering of rationals
differs textually from Python float formatting; no claim depends on the
description texts, which are carried only for completeness. -/
def pyRepr (v : PyVal) : String :=
  match v with
  | .num q => toString q
  | .str s => s

/-- Python `v * q` / `q - v` operand coercion inside the risk-score sum:
a number is used as is, a string operand raises `TypeError` (`none`). -/
def pyToNum (v : PyVal) : Option ℚ :=
  match v with
  | .num q => some q
  | .str _ => none

/-- Python `float(v)` in `preprocess`: numbers coerce to themselves,
non-numeric values raise `ValueError` (`none`). (A purely numeric string such
as "5" would parse in Python; the API layer validates numeric fields as
floats upstream, and every claim about malformed values concerns values that
are not coercible, so strings are embedded as non-coercible.) -/
def coerceFloat (v : PyVal) : Option ℚ :=
  match v with
  | .num q => some q
  | .str _ => none

/-- Sleep-duration lookup table of `DataPreprocessor.__init__`
(preprocessor.py lines 21-27). -/
def sleep_mapping : List (String × ℚ) :=
  [("Less than 5 hours", 4), ("5-6 hours", 5.5), ("7-8 hours", 7.5),
   ("More than 8 hours", 9), ("Others", 6.0)]

/-- Dietary-habits lookup table (preprocessor.py lines 30-35). -/
def diet_mapping : List (String × ℚ) :=
  [("Unhealthy", 1), ("Moderate", 2), ("Healthy", 3), ("Others", 2)]

/-- Gender encoder table of `default_encoders` (preprocessor.py line 39). -/
def gender_encoding : List (String × ℚ) :=
  [("Male", 0), ("Female", 1), ("Other", 2)]

/-- Profession encoder table of `default_encoders` (preprocessor.py
lines 40-43). -/
def profession_encoding : List (String × ℚ) :=
  [("Student", 0), ("Employee", 1), ("Self-employed", 2),
   ("Unemployed", 3), ("Other", 4)]

/-- Suicidal-thoughts encoder table of `default_encoders`
(preprocessor.py line 44). -/
def suicidal_encoding : List (String × ℚ) :=
  [("No", 0), ("Yes", 1)]

/-- Family-history encoder table of `default_encoders`
(preprocessor.py line 45). -/
def family_encoding : List (String × ℚ) :=
  [("No", 0), ("Yes", 1)]

/-- Python `self.sleep_mapping.get(v, 7.5)`: a non-string key misses. -/
def sleepHoursOf (v : PyVal) : ℚ :=
  match v with
  | .str s => (List.lookup s sleep_mapping).getD 7.5
  | .num _ => 7.5

/-- Python `self.diet_mapping.get(v, 2)`. -/
def dietScoreOf (v : PyVal) : ℚ :=
  match v with
  | .str s => (List.lookup s diet_mapping).getD 2
  | .num _ => 2

/-- Python `self.default_encoders['Gender'].get(v, 0)`. -/
def genderEncodedOf (v : PyVal) : ℚ :=
  match v with
  | .str s => (List.lookup s gender_encoding).getD 0
  | .num _ => 0

/-- Python `self.default_encoders['Profession'].get(v, 0)`. -/
def professionEncodedOf (v : PyVal) : ℚ :=
  match v with
  | .str s => (List.lookup s profession_encoding).getD 0
  | .num _ => 0

/-- Python suicidal-thoughts encoder `.get(v, 0)`. -/
def suicidalEncodedOf (v : PyVal) : ℚ :=
  match v with
  | .str s => (List.lookup s suicidal_encoding).getD 0
  | .num _ => 0

/-- Python family-history encoder `.get(v, 0)`. -/
def familyEncodedOf (v : PyVal) : ℚ :=
  match v with
  | .str s => (List.lookup s family_encoding).getD 0
  | .num _ => 0

/-- The `numerical_features` list of `preprocess` (preprocessor.py
lines 62-65). -/
def numerical_features : List String :=
  ["age", "academic_pressure", "work_pressure", "cgpa",
   "study_satisfaction", "job_satisfaction", "work_study_hours",
   "financial_stress"]

/-- The `feature_mapping` dict of `preprocess` (preprocessor.py
lines 68-77): raw field name to model feature name. -/
def feature_mapping : List (String × String) :=
  [("age", "Age"), ("academic_pressure", "Academic Pressure"),
   ("work_pressure", "Work Pressure"), ("cgpa", "CGPA"),
   ("study_satisfaction", "Study Satisfaction"),
   ("job_satisfaction", "Job Satisfaction"),
   ("work_study_hours", "Work/Study Hours"),
   ("financial_stress", "Financial Stress")]

/-- One iteration of the numeric-feature loop of `preprocess`
(preprocessor.py lines 79-84): a present value goes through `float`
(raising on a malformed value), an absent field defaults to `0.0` with a
logged warning. -/
def coerceNumeric (data : RawData) (feature : String) : Except String ℚ :=
  match List.lookup feature data with
  | some v =>
      match coerceFloat v with
      | some q => .ok q
      | none => .error ("could not convert to float: " ++ feature)
  | none => .ok 0

/-- Body of the `try` block of `_calculate_risk_score` (preprocessor.py
lines 128-138): the six terms are fetched and combined left to right, and a
string operand makes the arithmetic raise (`none`). -/
def riskScoreCore (processed_data : RawData) : Option ℚ := do
  let ap ← pyToNum (pyGet processed_data "Academic Pressure" (.num 0))
  let fs ← pyToNum (pyGet processed_data "Financial Stress" (.num 0))
  let sh ← pyToNum (pyGet processed_data "Sleep_Hours" (.num 7.5))
  let ds ← pyToNum (pyGet processed_data "Diet_Score" (.num 2))
  let su ← pyToNum (pyGet processed_data "Have you ever had suicidal thoughts ?_encoded" (.num 0))
  let fh ← pyToNum (pyGet processed_data "Family History of Mental Illness_encoded" (.num 0))
  some (ap * 0.2 + fs * 0.2 + (5 - sh) * 0.1 + (4 - ds) * 0.1 + su * 0.3 + fh * 0.1)

/-- `DataPreprocessor._calculate_risk_score` (preprocessor.py lines
118-142): any exception inside the computation degrades to `0.0`
(the `except` branch), never propagated. -/
def _calculate_risk_score (processed_data : RawData) : ℚ :=
  (riskScoreCore processed_data).getD 0

/-- `DataPreprocessor.preprocess` (preprocessor.py lines 48-116), the
numeric loop unrolled over `numerical_features` in order. The `try` block
re-raises any exception (`raise e`), so a `float` failure surfaces as
`.error`; the processed dict is built in Python insertion order with
`Risk_Score` added last. -/
def preprocess (data : RawData) : Except String RawData :=
  match coerceNumeric data "age" with
  | .error e => .error e
  | .ok age =>
  match coerceNumeric data "academic_pressure" with
  | .error e => .error e
  | .ok academic_pressure =>
  match coerceNumeric data "work_pressure" with
  | .error e => .error e
  | .ok work_pressure =>
  match coerceNumeric data "cgpa" with
  | .error e => .error e
  | .ok cgpa =>
  match coerceNumeric data "study_satisfaction" with
  | .error e => .error e
  | .ok study_satisfaction =>
  match coerceNumeric data "job_satisfaction" with
  | .error e => .error e
  | .ok job_satisfaction =>
  match coerceNumeric data "work_study_hours" with
  | .error e => .error e
  | .ok work_study_hours =>
  match coerceNumeric data "financial_stress" with
  | .error e => .error e
  | .ok financial_stress =>
    let partial_dict : RawData :=
      [("Age", .num age),
       ("Academic Pressure", .num academic_pressure),
       ("Work Pressure", .num work_pressure),
       ("CGPA", .num cgpa),
       ("Study Satisfaction", .num study_satisfaction),
       ("Job Satisfaction", .num job_satisfaction),
       ("Work/Study Hours", .num work_study_hours),
       ("Financial Stress", .num financial_stress),
       ("Sleep_Hours", .num (sleepHoursOf (pyGet data "sleep_duration" (.str "7-8 hours")))),
       ("Diet_Score", .num (dietScoreOf (pyGet data "dietary_habits" (.str "Moderate")))),
       ("Gender_encoded", .num (genderEncodedOf (pyGet data "gender" (.str "Male")))),
       ("Profession_encoded", .num (professionEncodedOf (pyGet data "profession" (.str "Student")))),
       ("Have you ever had suicidal thoughts ?_encoded", .num (suicidalEncodedOf (pyGet data "suicidal_thoughts" (.str "No")))),
       ("Family History of Mental Illness_encoded", .num (familyEncodedOf (pyGet data "family_history" (.str "No"))))]
    .ok (partial_dict ++ [("Risk_Score", .num (_calculate_risk_score partial_dict))])

/-- A validated `DiagnosisRequest` (main.py lines 64-81): the pydantic model
guarantees every field present with numeric fields as floats and categorical
fields as strings. -/
structure RawAnswers where
  age : ℚ
  gender : String
  academic_pressure : ℚ
  work_pressure : ℚ
  cgpa : ℚ
  study_satisfaction : ℚ
  job_satisfaction : ℚ
  work_study_hours : ℚ
  financial_stress : ℚ
  sleep_duration : String
  dietary_habits : String
  suicidal_thoughts : String
  family_history : String
  city : String
  profession : String
  degree : String
deriving DecidableEq

/-- `request.dict()` (main.py lines 180, 186, 190): the dict the endpoint
hands to the preprocessor, in field declaration order. -/
def toRawData (r : RawAnswers) : RawData :=
  [("age", .num r.age), ("gender", .str r.gender),
   ("academic_pressure", .num r.academic_pressure),
   ("work_pressure", .num r.work_pressure), ("cgpa", .num r.cgpa),
   ("study_satisfaction", .num r.study_satisfaction),
   ("job_satisfaction", .num r.job_satisfaction),
   ("work_study_hours", .num r.work_study_hours),
   ("financial_stress", .num r.financial_stress),
   ("sleep_duration", .str r.sleep_duration),
   ("dietary_habits", .str r.dietary_habits),
   ("suicidal_thoughts", .str r.suicidal_thoughts),
   ("family_history", .str r.family_history),
   ("city", .str r.city), ("profession", .str r.profession),
   ("degree", .str r.degree)]

/-- The default `feature_columns` of `MentalHealthPredictor._load_models`
(predictor.py lines 117-122): the model contract, ordered. -/
def feature_columns : List String :=
  ["Age", "Academic Pressure", "Work Pressure", "CGPA", "Study Satisfaction",
   "Job Satisfaction", "Work/Study Hours", "Financial Stress", "Sleep_Hours",
   "Diet_Score", "Risk_Score", "Gender_encoded", "Profession_encoded",
   "Have you ever had suicidal thoughts ?_encoded",
   "Family History of Mental Illness_encoded"]

/-- Value the numeric loop stores for a feature when no exception occurs:
the coerced value when present, `0.0` when absent. -/
def numValue (data : RawData) (k : String) : ℚ :=
  match List.lookup k data with
  | none => 0
  | some v => (coerceFloat v).getD 0

/-- The risk score of a validated request, written exactly as the source
expression evaluates on the processed dict. -/
def riskScoreOf (r : RawAnswers) : ℚ :=
  r.academic_pressure * 0.2 + r.financial_stress * 0.2 +
  (5 - (List.lookup r.sleep_duration sleep_mapping).getD 7.5) * 0.1 +
  (4 - (List.lookup r.dietary_habits diet_mapping).getD 2) * 0.1 +
  (List.lookup r.suicidal_thoughts suicidal_encoding).getD 0 * 0.3 +
  (List.lookup r.family_history family_encoding).getD 0 * 0.1

/-- The processed dict `preprocess` builds for a validated request. -/
def processedOf (r : RawAnswers) : RawData :=
  [("Age", .num r.age),
   ("Academic Pressure", .num r.academic_pressure),
   ("Work Pressure", .num r.work_pressure),
   ("CGPA", .num r.cgpa),
   ("Study Satisfaction", .num r.study_satisfaction),
   ("Job Satisfaction", .num r.job_satisfaction),
   ("Work/Study Hours", .num r.work_study_hours),
   ("Financial Stress", .num r.financial_stress),
   ("Sleep_Hours", .num ((List.lookup r.sleep_duration sleep_mapping).getD 7.5)),
   ("Diet_Score", .num ((List.lookup r.dietary_habits diet_mapping).getD 2)),
   ("Gender_encoded", .num ((List.lookup r.gender gender_encoding).getD 0)),
   ("Profession_encoded", .num ((List.lookup r.profession profession_encoding).getD 0)),
   ("Have you ever had suicidal thoughts ?_encoded", .num ((List.lookup r.suicidal_thoughts suicidal_encoding).getD 0)),
   ("Family History of Mental Illness_encoded", .num ((List.lookup r.family_history family_encoding).getD 0)),
   ("Risk_Score", .num (riskScoreOf r))]

/-- On a validated request `preprocess` succeeds and produces exactly the
processed dict, with the risk score computed from the mapped values. -/
theorem preprocess_toRawData (r : RawAnswers) :
    preprocess (toRawData r) = .ok (processedOf r) := by
  simp [preprocess, toRawData, coerceNumeric, coerceFloat, pyGet,
    sleepHoursOf, dietScoreOf, genderEncodedOf, professionEncodedOf,
    suicidalEncodedOf, familyEncodedOf, _calculate_risk_score,
    riskScoreCore, pyToNum, processedOf, riskScoreOf, List.lookup]

/-- The concrete questionnaire scenario of the spec (academic_pressure 5,
financial_stress 5, sleep "Less than 5 hours", diet "Unhealthy",
suicidal "Yes", family history "Yes", work_pressure 3,
study_satisfaction 3, job_satisfaction 0, cgpa 7). -/
def scenario_input : RawAnswers :=
  { age := 20, gender := "Male", academic_pressure := 5, work_pressure := 3,
    cgpa := 7, study_satisfaction := 3, job_satisfaction := 0,
    work_study_hours := 6, financial_stress := 5,
    sleep_duration := "Less than 5 hours", dietary_habits := "Unhealthy",
    suicidal_thoughts := "Yes", family_history := "Yes", city := "Lahore",
    profession := "Student", degree := "BSc" }

/-- C1: the derived risk score equals the fixed linear formula
0.2·academic_pressure + 0.2·financial_stress + 0.1·(5 − sleep_hours) +
0.1·(4 − diet_score) + 0.3·suicidal_encoded + 0.1·family_encoded over the
mapped values, and on the fixed scenario (academic_pressure 5,
financial_stress 5, mapped sleep hours 4, mapped diet score 1, suicidal
encoding 1, family encoding 1) it equals 2.8. -/
theorem risk_score_formula :
    (∀ r : RawAnswers, ∃ p, preprocess (toRawData r) = .ok p ∧
      List.lookup "Risk_Score" p = some (.num
        (0.2 * r.academic_pressure + 0.2 * r.financial_stress +
         0.1 * (5 - (List.lookup r.sleep_duration sleep_mapping).getD 7.5) +
         0.1 * (4 - (List.lookup r.dietary_habits diet_mapping).getD 2) +
         0.3 * (List.lookup r.suicidal_thoughts suicidal_encoding).getD 0 +
         0.1 * (List.lookup r.family_history family_encoding).getD 0))) ∧
    (∃ p, preprocess (toRawData scenario_input) = .ok p ∧
      List.lookup "Risk_Score" p = some (.num 2.8)) := by
  have key : ∀ r : RawAnswers, ∃ p, preprocess (toRawData r) = .ok p ∧
      List.lookup "Risk_Score" p = some (.num
        (0.2 * r.academic_pressure + 0.2 * r.financial_stress +
         0.1 * (5 - (List.lookup r.sleep_duration sleep_mapping).getD 7.5) +
         0.1 * (4 - (List.lookup r.dietary_habits diet_mapping).getD 2) +
         0.3 * (List.lookup r.suicidal_thoughts suicidal_encoding).getD 0 +
         0.1 * (List.lookup r.family_history family_encoding).getD 0)) := by
    intro r
    refine ⟨processedOf r, preprocess_toRawData r, ?_⟩
    simp [processedOf, List.lookup, riskScoreOf]
    ring
  refine ⟨key, ?_⟩
  obtain ⟨p, hp, hl⟩ := key scenario_input
  refine ⟨p, hp, ?_⟩
  rw [hl]
  have : (0.2 * scenario_input.academic_pressure +
      0.2 * scenario_input.financial_stress +
      0.1 * (5 - (List.lookup scenario_input.sleep_duration sleep_mapping).getD 7.5) +
      0.1 * (4 - (List.lookup scenario_input.dietary_habits diet_mapping).getD 2) +
      0.3 * (List.lookup scenario_input.suicidal_thoughts suicidal_encoding).getD 0 +
      0.1 * (List.lookup scenario_input.family_history family_encoding).getD 0) = 2.8 := by
    simp [scenario_input, sleep_mapping, diet_mapping, suicidal_encoding,
      family_encoding, List.lookup]
    norm_num
  rw [this]

/-- Coercion of one numeric feature succeeds whenever any present value is
coercible, and gives the present value or the `0.0` default. -/
theorem coerceNumeric_eq_ok (data : RawData) (k : String)
    (h : ∀ v, List.lookup k data = some v → (coerceFloat v).isSome) :
    coerceNumeric data k = .ok (numValue data k) := by
  cases hl : List.lookup k data with
  | none => simp [coerceNumeric, numValue, hl]
  | some v =>
    have hs := h v hl
    cases hc : coerceFloat v with
    | none => rw [hc] at hs; simp at hs
    | some q => simp [coerceNumeric, numValue, hl, hc]

/-- First fourteen entries of the processed dict for arbitrary raw data
whose present numeric values coerce. -/
def generalPartial (data : RawData) : RawData :=
  [("Age", .num (numValue data "age")),
   ("Academic Pressure", .num (numValue data "academic_pressure")),
   ("Work Pressure", .num (numValue data "work_pressure")),
   ("CGPA", .num (numValue data "cgpa")),
   ("Study Satisfaction", .num (numValue data "study_satisfaction")),
   ("Job Satisfaction", .num (numValue data "job_satisfaction")),
   ("Work/Study Hours", .num (numValue data "work_study_hours")),
   ("Financial Stress", .num (numValue data "financial_stress")),
   ("Sleep_Hours", .num (sleepHoursOf (pyGet data "sleep_duration" (.str "7-8 hours")))),
   ("Diet_Score", .num (dietScoreOf (pyGet data "dietary_habits" (.str "Moderate")))),
   ("Gender_encoded", .num (genderEncodedOf (pyGet data "gender" (.str "Male")))),
   ("Profession_encoded", .num (professionEncodedOf (pyGet data "profession" (.str "Student")))),
   ("Have you ever had suicidal thoughts ?_encoded", .num (suicidalEncodedOf (pyGet data "suicidal_thoughts" (.str "No")))),
   ("Family History of Mental Illness_encoded", .num (familyEncodedOf (pyGet data "family_history" (.str "No"))))]

/-- The full processed dict for arbitrary raw data whose present numeric
values coerce. -/
def generalProcessed (data : RawData) : RawData :=
  generalPartial data ++ [("Risk_Score", .num (_calculate_risk_score (generalPartial data)))]

/-- Whenever every present numeric value coerces, `preprocess` succeeds and
produces the processed dict built from present values and defaults. -/
theorem preprocess_ok (data : RawData)
    (h : ∀ k ∈ numerical_features, ∀ v,
      List.lookup k data = some v → (coerceFloat v).isSome) :
    preprocess data = .ok (generalProcessed data) := by
  have h1 := coerceNumeric_eq_ok data "age" (h "age" (by simp [numerical_features]))
  have h2 := coerceNumeric_eq_ok data "academic_pressure"
    (h "academic_pressure" (by simp [numerical_features]))
  have h3 := coerceNumeric_eq_ok data "work_pressure"
    (h "work_pressure" (by simp [numerical_features]))
  have h4 := coerceNumeric_eq_ok data "cgpa" (h "cgpa" (by simp [numerical_features]))
  have h5 := coerceNumeric_eq_ok data "study_satisfaction"
    (h "study_satisfaction" (by simp [numerical_features]))
  have h6 := coerceNumeric_eq_ok data "job_satisfaction"
    (h "job_satisfaction" (by simp [numerical_features]))
  have h7 := coerceNumeric_eq_ok data "work_study_hours"
    (h "work_study_hours" (by simp [numerical_features]))
  have h8 := coerceNumeric_eq_ok data "financial_stress"
    (h "financial_stress" (by simp [numerical_features]))
  simp [preprocess, h1, h2, h3, h4, h5, h6, h7, h8, generalProcessed,
    generalPartial]

/-- C6: for every raw input whose present numeric values are coercible,
`preprocess` succeeds, its output binds every one of the model's declared
feature names with no key absent, and every numeric source field that is
missing maps to the default `0.0` instead of causing an error. -/
theorem feature_vector_complete (data : RawData)
    (h : ∀ k ∈ numerical_features, ∀ v,
      List.lookup k data = some v → (coerceFloat v).isSome) :
    ∃ p, preprocess data = .ok p ∧
      (∀ name ∈ feature_columns, (List.lookup name p).isSome) ∧
      (∀ kv ∈ feature_mapping, List.lookup kv.1 data = none →
        List.lookup kv.2 p = some (.num 0)) := by
  refine ⟨generalProcessed data, preprocess_ok data h, ?_, ?_⟩
  · intro name hn
    fin_cases hn <;>
      simp [generalProcessed, generalPartial, List.lookup]
  · intro kv hkv hnone
    fin_cases hkv <;>
      simp [generalProcessed, generalPartial, numValue, hnone, List.lookup]

/-- Witness for C6 at the empty dict: the hypothesis holds vacuously and the
conclusion produces a complete all-defaults vector. -/
theorem feature_vector_complete_witness :
    (∀ k ∈ numerical_features, ∀ v,
      List.lookup k ([] : RawData) = some v → (coerceFloat v).isSome) ∧
    (∃ p, preprocess ([] : RawData) = .ok p ∧
      (∀ name ∈ feature_columns, (List.lookup name p).isSome) ∧
      (∀ kv ∈ feature_mapping, List.lookup kv.1 ([] : RawData) = none →
        List.lookup kv.2 p = some (.num 0))) :=
  ⟨by simp, feature_vector_complete [] (by simp)⟩

/-- C8: an exception inside the risk-score computation never propagates:
the score degrades to `0.0`, and the surrounding mapping pipeline still
succeeds and runs to completion whenever its own numeric coercions do. -/
theorem risk_score_degrades :
    (∀ d : RawData, riskScoreCore d = none → _calculate_risk_score d = 0) ∧
    (∀ data : RawData,
      (∀ k ∈ numerical_features, ∀ v,
        List.lookup k data = some v → (coerceFloat v).isSome) →
      ∃ p, preprocess data = .ok p ∧ (List.lookup "Risk_Score" p).isSome) := by
  constructor
  · intro d hd
    simp [_calculate_risk_score, hd]
  · intro data h
    refine ⟨generalProcessed data, preprocess_ok data h, ?_⟩
    simp [generalProcessed, generalPartial, List.lookup]

/-- Witness for C8: a processed dict holding a string under
"Academic Pressure" makes the core computation raise, the degraded score is
0, and an empty raw dict still preprocesses to a vector with a risk score. -/
theorem risk_score_degrades_witness :
    (riskScoreCore [("Academic Pressure", PyVal.str "five")] = none ∧
      _calculate_risk_score [("Academic Pressure", PyVal.str "five")] = 0) ∧
    ((∀ k ∈ numerical_features, ∀ v,
        List.lookup k ([] : RawData) = some v → (coerceFloat v).isSome) ∧
      ∃ p, preprocess ([] : RawData) = .ok p ∧
        (List.lookup "Risk_Score" p).isSome) :=
  ⟨⟨by rfl, risk_score_degrades.1 _ (by rfl)⟩,
   ⟨by simp, risk_score_degrades.2 [] (by simp)⟩⟩

/-- When `preprocess` succeeds, every numeric-feature coercion succeeded. -/
theorem coerce_ok_of_preprocess_ok (data : RawData)
    (hok : ∃ p, preprocess data = .ok p) :
    ∀ k ∈ numerical_features, ∃ q, coerceNumeric data k = .ok q := by
  obtain ⟨p, hp⟩ := hok
  rw [preprocess] at hp
  cases h1 : coerceNumeric data "age" with
  | error e => rw [h1] at hp; simp at hp
  | ok q1 =>
  rw [h1] at hp
  cases h2 : coerceNumeric data "academic_pressure" with
  | error e => rw [h2] at hp; simp at hp
  | ok q2 =>
  rw [h2] at hp
  cases h3 : coerceNumeric data "work_pressure" with
  | error e => rw [h3] at hp; simp at hp
  | ok q3 =>
  rw [h3] at hp
  cases h4 : coerceNumeric data "cgpa" with
  | error e => rw [h4] at hp; simp at hp
  | ok q4 =>
  rw [h4] at hp
  cases h5 : coerceNumeric data "study_satisfaction" with
  | error e => rw [h5] at hp; simp at hp
  | ok q5 =>
  rw [h5] at hp
  cases h6 : coerceNumeric data "job_satisfaction" with
  | error e => rw [h6] at hp; simp at hp
  | ok q6 =>
  rw [h6] at hp
  cases h7 : coerceNumeric data "work_study_hours" with
  | error e => rw [h7] at hp; simp at hp
  | ok q7 =>
  rw [h7] at hp
  cases h8 : coerceNumeric data "financial_stress" with
  | error e => rw [h8] at hp; simp at hp
  | ok q8 =>
  intro k hk
  fin_cases hk
  · exact ⟨q1, h1⟩
  · exact ⟨q2, h2⟩
  · exact ⟨q3, h3⟩
  · exact ⟨q4, h4⟩
  · exact ⟨q5, h5⟩
  · exact ⟨q6, h6⟩
  · exact ⟨q7, h7⟩
  · exact ⟨q8, h8⟩

/-- C10: a numeric field that is present but holds a value that cannot be
coerced makes `preprocess` raise (the error is propagated, no partial
output is returned). -/
theorem malformed_numeric_raises (data : RawData) (k : String) (s : String)
    (hk : k ∈ numerical_features)
    (hs : List.lookup k data = some (.str s)) :
    ∃ msg, preprocess data = .error msg := by
  cases hp : preprocess data with
  | error e => exact ⟨e, rfl⟩
  | ok p =>
    exfalso
    obtain ⟨q, hq⟩ := coerce_ok_of_preprocess_ok data ⟨p, hp⟩ k hk
    rw [coerceNumeric, hs] at hq
    simp [coerceFloat] at hq

/-- Witness for C10: the dict binding "age" to the string "abc" satisfies
the hypotheses and makes `preprocess` fail. -/
theorem malformed_numeric_raises_witness :
    ("age" ∈ numerical_features ∧
      List.lookup "age" [("age", PyVal.str "abc")] = some (.str "abc")) ∧
    (∃ msg, preprocess [("age", PyVal.str "abc")] = .error msg) :=
  ⟨⟨by simp [numerical_features], by rfl⟩,
   malformed_numeric_raises [("age", PyVal.str "abc")] "age" "abc"
     (by simp [numerical_features]) (by rfl)⟩

/-- A risk factor record (preprocessor.py, the dicts appended by
`analyze_risk_factors`; `RiskFactor` in main.py lines 118-123). -/
structure RiskFactor where
  factor : String
  value : PyVal
  impact : String
  description : String
deriving DecidableEq

/-- Academic-pressure rule (preprocessor.py lines 157-165). -/
def ruleAcademic (data : RawData) : Option (List RiskFactor) :=
  match pyGE (pyGet data "academic_pressure" (.num 0)) 4 with
  | none => none
  | some c =>
    if c then
      match pyGE (pyGet data "academic_pressure" (.num 0)) 5 with
      | none => none
      | some hi =>
        some [{ factor := "High Academic Pressure",
                value := pyGet data "academic_pressure" (.num 0),
                impact := if hi then "High" else "Medium",
                description := "Academic pressure level of " ++
                  pyRepr (pyGet data "academic_pressure" (.num 0)) ++
                  "/5 indicates significant stress" }]
    else some []

/-- Financial-stress rule (preprocessor.py lines 167-175). -/
def ruleFinancialStress (data : RawData) : Option (List RiskFactor) :=
  match pyGE (pyGet data "financial_stress" (.num 0)) 4 with
  | none => none
  | some c =>
    if c then
      match pyGE (pyGet data "financial_stress" (.num 0)) 5 with
      | none => none
      | some hi =>
        some [{ factor := "High Financial Stress",
                value := pyGet data "financial_stress" (.num 0),
                impact := if hi then "High" else "Medium",
                description := "Financial stress level of " ++
                  pyRepr (pyGet data "financial_stress" (.num 0)) ++
                  "/5 indicates significant financial pressure" }]
    else some []

/-- Sleep-duration rule (preprocessor.py lines 177-185); string comparisons
never raise. -/
def ruleSleep (data : RawData) : Option (List RiskFactor) :=
  if pyEqStr (pyGet data "sleep_duration" (.str "7-8 hours")) "Less than 5 hours" ||
     pyEqStr (pyGet data "sleep_duration" (.str "7-8 hours")) "5-6 hours" then
    some [{ factor := "Insufficient Sleep",
            value := pyGet data "sleep_duration" (.str "7-8 hours"),
            impact := if pyEqStr (pyGet data "sleep_duration" (.str "7-8 hours")) "Less than 5 hours"
                      then "High" else "Medium",
            description := "Sleep duration of " ++
              pyRepr (pyGet data "sleep_duration" (.str "7-8 hours")) ++
              " may contribute to mental health issues" }]
  else some []

/-- Dietary-habits rule (preprocessor.py lines 187-195). -/
def ruleDiet (data : RawData) : Option (List RiskFactor) :=
  if pyEqStr (pyGet data "dietary_habits" (.str "Moderate")) "Unhealthy" then
    some [{ factor := "Unhealthy Diet",
            value := pyGet data "dietary_habits" (.str "Moderate"),
            impact := "Medium",
            description := "Unhealthy dietary habits may negatively impact mental health" }]
  else some []

/-- Suicidal-thoughts rule (preprocessor.py lines 197-205). -/
def ruleSuicidal (data : RawData) : Option (List RiskFactor) :=
  if pyEqStr (pyGet data "suicidal_thoughts" (.str "No")) "Yes" then
    some [{ factor := "History of Suicidal Thoughts",
            value := pyGet data "suicidal_thoughts" (.str "No"),
            impact := "Critical",
            description := "Previous suicidal thoughts indicate high risk and require immediate attention" }]
  else some []

/-- Family-history rule (preprocessor.py lines 207-215). -/
def ruleFamilyHistory (data : RawData) : Option (List RiskFactor) :=
  if pyEqStr (pyGet data "family_history" (.str "No")) "Yes" then
    some [{ factor := "Family History of Mental Illness",
            value := pyGet data "family_history" (.str "No"),
            impact := "Medium",
            description := "Family history of mental illness increases risk of developing similar conditions" }]
  else some []

/-- Work-pressure rule (preprocessor.py lines 217-225). -/
def ruleWorkPressure (data : RawData) : Option (List RiskFactor) :=
  match pyGE (pyGet data "work_pressure" (.num 0)) 4 with
  | none => none
  | some c =>
    if c then
      match pyGE (pyGet data "work_pressure" (.num 0)) 5 with
      | none => none
      | some hi =>
        some [{ factor := "High Work Pressure",
                value := pyGet data "work_pressure" (.num 0),
                impact := if hi then "High" else "Medium",
                description := "Work pressure level of " ++
                  pyRepr (pyGet data "work_pressure" (.num 0)) ++
                  "/5 indicates significant workplace stress" }]
    else some []

/-- Study-satisfaction rule (preprocessor.py lines 227-235). -/
def ruleStudySatisfaction (data : RawData) : Option (List RiskFactor) :=
  match pyLE (pyGet data "study_satisfaction" (.num 0)) 2 with
  | none => none
  | some c =>
    if c then
      some [{ factor := "Low Study Satisfaction",
              value := pyGet data "study_satisfaction" (.num 0),
              impact := "Medium",
              description := "Study satisfaction level of " ++
                pyRepr (pyGet data "study_satisfaction" (.num 0)) ++
                "/5 indicates dissatisfaction with academic life" }]
    else some []

/-- Job-satisfaction rule (preprocessor.py lines 237-244); the conjunction
short-circuits as in Python. -/
def ruleJobSatisfaction (data : RawData) : Option (List RiskFactor) :=
  match pyLE (pyGet data "job_satisfaction" (.num 0)) 2 with
  | none => none
  | some c1 =>
    if c1 then
      match pyGT (pyGet data "job_satisfaction" (.num 0)) 0 with
      | none => none
      | some c2 =>
        if c2 then
          some [{ factor := "Low Job Satisfaction",
                  value := pyGet data "job_satisfaction" (.num 0),
                  impact := "Medium",
                  description := "Job satisfaction level of " ++
                    pyRepr (pyGet data "job_satisfaction" (.num 0)) ++
                    "/5 indicates workplace dissatisfaction" }]
        else some []
    else some []

/-- CGPA rule (preprocessor.py lines 246-254). -/
def ruleCgpa (data : RawData) : Option (List RiskFactor) :=
  match pyLT (pyGet data "cgpa" (.num 0)) 6.0 with
  | none => none
  | some c =>
    if c then
      some [{ factor := "Low Academic Performance",
              value := pyGet data "cgpa" (.num 0),
              impact := "Medium",
              description := "CGPA of " ++
                pyRepr (pyGet data "cgpa" (.num 0)) ++
                " may indicate academic struggles affecting mental health" }]
    else some []

/-- Sequential evaluation of the rules inside the single `try` block of
`analyze_risk_factors`: factors accumulate in order and the first raising
rule aborts the rest. -/
def runRules (data : RawData) :
    List (RawData → Option (List RiskFactor)) → Option (List RiskFactor)
  | [] => some []
  | r :: rs =>
    match r data with
    | none => none
    | some l =>
      match runRules data rs with
      | none => none
      | some ls => some (l ++ ls)

/-- The ten threshold rules in source order (preprocessor.py
lines 154-256). -/
def risk_rules : List (RawData → Option (List RiskFactor)) :=
  [ruleAcademic, ruleFinancialStress, ruleSleep, ruleDiet, ruleSuicidal,
   ruleFamilyHistory, ruleWorkPressure, ruleStudySatisfaction,
   ruleJobSatisfaction, ruleCgpa]

/-- Body of the `try` block of `analyze_risk_factors`. -/
def analyzeCore (data : RawData) : Option (List RiskFactor) :=
  runRules data risk_rules

/-- `DataPreprocessor.analyze_risk_factors` (preprocessor.py lines
144-260): on any internal error the `except` branch returns the empty
list. -/
def analyze_risk_factors (data : RawData) : List RiskFactor :=
  (analyzeCore data).getD []

/-- The fixed emission order of the rules, by factor name. -/
def factor_order : List String :=
  ["High Academic Pressure", "High Financial Stress", "Insufficient Sleep",
   "Unhealthy Diet", "History of Suicidal Thoughts",
   "Family History of Mental Illness", "High Work Pressure",
   "Low Study Satisfaction", "Low Job Satisfaction",
   "Low Academic Performance"]

/-- Every factor the academic-pressure rule emits carries its fixed name. -/
theorem ruleAcademic_factors (data : RawData) :
    ∀ l, ruleAcademic data = some l →
      (l.map RiskFactor.factor).Sublist ["High Academic Pressure"] := by
  intro l h
  unfold ruleAcademic at h
  split at h
  · exact absurd h (by simp)
  · split at h
    · split at h
      · exact absurd h (by simp)
      · simp at h
        subst h
        simp
    · simp at h
      subst h
      simp

/-- Every factor the financial-stress rule emits carries its fixed name. -/
theorem ruleFinancialStress_factors (data : RawData) :
    ∀ l, ruleFinancialStress data = some l →
      (l.map RiskFactor.factor).Sublist ["High Financial Stress"] := by
  intro l h
  unfold ruleFinancialStress at h
  split at h
  · exact absurd h (by simp)
  · split at h
    · split at h
      · exact absurd h (by simp)
      · simp at h
        subst h
        simp
    · simp at h
      subst h
      simp

/-- Every factor the sleep rule emits carries its fixed name. -/
theorem ruleSleep_factors (data : RawData) :
    ∀ l, ruleSleep data = some l →
      (l.map RiskFactor.factor).Sublist ["Insufficient Sleep"] := by
  intro l h
  unfold ruleSleep at h
  split at h <;> simp at h <;> subst h <;> simp

/-- Every factor the diet rule emits carries its fixed name. -/
theorem ruleDiet_factors (data : RawData) :
    ∀ l, ruleDiet data = some l →
      (l.map RiskFactor.factor).Sublist ["Unhealthy Diet"] := by
  intro l h
  unfold ruleDiet at h
  split at h <;> simp at h <;> subst h <;> simp

/-- Every factor the suicidal-thoughts rule emits carries its fixed name. -/
theorem ruleSuicidal_factors (data : RawData) :
    ∀ l, ruleSuicidal data = some l →
      (l.map RiskFactor.factor).Sublist ["History of Suicidal Thoughts"] := by
  intro l h
  unfold ruleSuicidal at h
  split at h <;> simp at h <;> subst h <;> simp

/-- Every factor the family-history rule emits carries its fixed name. -/
theorem ruleFamilyHistory_factors (data : RawData) :
    ∀ l, ruleFamilyHistory data = some l →
      (l.map RiskFactor.factor).Sublist ["Family History of Mental Illness"] := by
  intro l h
  unfold ruleFamilyHistory at h
  split at h <;> simp at h <;> subst h <;> simp

/-- Every factor the work-pressure rule emits carries its fixed name. -/
theorem ruleWorkPressure_factors (data : RawData) :
    ∀ l, ruleWorkPressure data = some l →
      (l.map RiskFactor.factor).Sublist ["High Work Pressure"] := by
  intro l h
  unfold ruleWorkPressure at h
  split at h
  · exact absurd h (by simp)
  · split at h
    · split at h
      · exact absurd h (by simp)
      · simp at h
        subst h
        simp
    · simp at h
      subst h
      simp

/-- Every factor the study-satisfaction rule emits carries its fixed name. -/
theorem ruleStudySatisfaction_factors (data : RawData) :
    ∀ l, ruleStudySatisfaction data = some l →
      (l.map RiskFactor.factor).Sublist ["Low Study Satisfaction"] := by
  intro l h
  unfold ruleStudySatisfaction at h
  split at h
  · exact absurd h (by simp)
  · split at h <;> simp at h <;> subst h <;> simp

/-- Every factor the job-satisfaction rule emits carries its fixed name. -/
theorem ruleJobSatisfaction_factors (data : RawData) :
    ∀ l, ruleJobSatisfaction data = some l →
      (l.map RiskFactor.factor).Sublist ["Low Job Satisfaction"] := by
  intro l h
  unfold ruleJobSatisfaction at h
  split at h
  · exact absurd h (by simp)
  · split at h
    · split at h
      · exact absurd h (by simp)
      · split at h <;> simp at h <;> subst h <;> simp
    · simp at h
      subst h
      simp

/-- Every factor the CGPA rule emits carries its fixed name. -/
theorem ruleCgpa_factors (data : RawData) :
    ∀ l, ruleCgpa data = some l →
      (l.map RiskFactor.factor).Sublist ["Low Academic Performance"] := by
  intro l h
  unfold ruleCgpa at h
  split at h
  · exact absurd h (by simp)
  · split at h <;> simp at h <;> subst h <;> simp

/-- Sequentially run rules emit their factors in rule order: the factor
names of a successful run form a sublist of the rules' names in order. -/
theorem runRules_factors_sublist (data : RawData) :
    ∀ (rs : List (RawData → Option (List RiskFactor))) (ns : List String),
      List.Forall₂ (fun rule n => ∀ l, rule data = some l →
        (l.map RiskFactor.factor).Sublist [n]) rs ns →
      ∀ l, runRules data rs = some l →
        (l.map RiskFactor.factor).Sublist ns := by
  intro rs ns hf
  induction hf with
  | nil =>
    intro l hl
    simp [runRules] at hl
    subst hl
    simp
  | @cons rule n rs' ns' hr hrest ih =>
    intro l hl
    unfold runRules at hl
    cases h1 : rule data with
    | none => rw [h1] at hl; simp at hl
    | some l1 =>
      rw [h1] at hl
      cases h2 : runRules data rs' with
      | none => rw [h2] at hl; simp at hl
      | some ls =>
        rw [h2] at hl
        simp at hl
        subst hl
        rw [List.map_append]
        exact List.Sublist.append (hr l1 h1) (ih ls h2)

/-- The ten rules paired with their emitted factor names, in order. -/
theorem risk_rules_forall (data : RawData) :
    List.Forall₂ (fun rule n => ∀ l, rule data = some l →
        (l.map RiskFactor.factor).Sublist [n]) risk_rules factor_order := by
  unfold risk_rules factor_order
  refine List.Forall₂.cons (ruleAcademic_factors data) ?_
  refine List.Forall₂.cons (ruleFinancialStress_factors data) ?_
  refine List.Forall₂.cons (ruleSleep_factors data) ?_
  refine List.Forall₂.cons (ruleDiet_factors data) ?_
  refine List.Forall₂.cons (ruleSuicidal_factors data) ?_
  refine List.Forall₂.cons (ruleFamilyHistory_factors data) ?_
  refine List.Forall₂.cons (ruleWorkPressure_factors data) ?_
  refine List.Forall₂.cons (ruleStudySatisfaction_factors data) ?_
  refine List.Forall₂.cons (ruleJobSatisfaction_factors data) ?_
  exact List.Forall₂.cons (ruleCgpa_factors data) List.Forall₂.nil

/-- Academic-pressure rule on a validated request. -/
theorem ruleAcademic_typed (r : RawAnswers) :
    ruleAcademic (toRawData r) = some
      (if 4 ≤ r.academic_pressure then
        [{ factor := "High Academic Pressure",
           value := .num r.academic_pressure,
           impact := if 5 ≤ r.academic_pressure then "High" else "Medium",
           description := "Academic pressure level of " ++
             pyRepr (.num r.academic_pressure) ++
             "/5 indicates significant stress" }]
      else []) := by
  by_cases h4 : 4 ≤ r.academic_pressure <;>
    by_cases h5 : 5 ≤ r.academic_pressure <;>
      simp [ruleAcademic, pyGet, toRawData, pyGE, List.lookup, h4, h5]

/-- Financial-stress rule on a validated request. -/
theorem ruleFinancialStress_typed (r : RawAnswers) :
    ruleFinancialStress (toRawData r) = some
      (if 4 ≤ r.financial_stress then
        [{ factor := "High Financial Stress",
           value := .num r.financial_stress,
           impact := if 5 ≤ r.financial_stress then "High" else "Medium",
           description := "Financial stress level of " ++
             pyRepr (.num r.financial_stress) ++
             "/5 indicates significant financial pressure" }]
      else []) := by
  by_cases h4 : 4 ≤ r.financial_stress <;>
    by_cases h5 : 5 ≤ r.financial_stress <;>
      simp [ruleFinancialStress, pyGet, toRawData, pyGE, List.lookup, h4, h5]

/-- Sleep rule on a validated request. -/
theorem ruleSleep_typed (r : RawAnswers) :
    ruleSleep (toRawData r) = some
      (if r.sleep_duration == "Less than 5 hours" ||
          r.sleep_duration == "5-6 hours" then
        [{ factor := "Insufficient Sleep",
           value := .str r.sleep_duration,
           impact := if r.sleep_duration == "Less than 5 hours"
                     then "High" else "Medium",
           description := "Sleep duration of " ++
             pyRepr (.str r.sleep_duration) ++
             " may contribute to mental health issues" }]
      else []) := by
  by_cases h1 : r.sleep_duration = "Less than 5 hours" <;>
    by_cases h2 : r.sleep_duration = "5-6 hours" <;>
      simp [ruleSleep, pyGet, toRawData, pyEqStr, List.lookup, h1, h2]

/-- Diet rule on a validated request. -/
theorem ruleDiet_typed (r : RawAnswers) :
    ruleDiet (toRawData r) = some
      (if r.dietary_habits == "Unhealthy" then
        [{ factor := "Unhealthy Diet",
           value := .str r.dietary_habits,
           impact := "Medium",
           description := "Unhealthy dietary habits may negatively impact mental health" }]
      else []) := by
  by_cases h : r.dietary_habits = "Unhealthy" <;>
    simp [ruleDiet, pyGet, toRawData, pyEqStr, List.lookup, h]

/-- Suicidal-thoughts rule on a validated request. -/
theorem ruleSuicidal_typed (r : RawAnswers) :
    ruleSuicidal (toRawData r) = some
      (if r.suicidal_thoughts == "Yes" then
        [{ factor := "History of Suicidal Thoughts",
           value := .str r.suicidal_thoughts,
           impact := "Critical",
           description := "Previous suicidal thoughts indicate high risk and require immediate attention" }]
      else []) := by
  by_cases h : r.suicidal_thoughts = "Yes" <;>
    simp [ruleSuicidal, pyGet, toRawData, pyEqStr, List.lookup, h]

/-- Family-history rule on a validated request. -/
theorem ruleFamilyHistory_typed (r : RawAnswers) :
    ruleFamilyHistory (toRawData r) = some
      (if r.family_history == "Yes" then
        [{ factor := "Family History of Mental Illness",
           value := .str r.family_history,
           impact := "Medium",
           description := "Family history of mental illness increases risk of developing similar conditions" }]
      else []) := by
  by_cases h : r.family_history = "Yes" <;>
    simp [ruleFamilyHistory, pyGet, toRawData, pyEqStr, List.lookup, h]

/-- Work-pressure rule on a validated request. -/
theorem ruleWorkPressure_typed (r : RawAnswers) :
    ruleWorkPressure (toRawData r) = some
      (if 4 ≤ r.work_pressure then
        [{ factor := "High Work Pressure",
           value := .num r.work_pressure,
           impact := if 5 ≤ r.work_pressure then "High" else "Medium",
           description := "Work pressure level of " ++
             pyRepr (.num r.work_pressure) ++
             "/5 indicates significant workplace stress" }]
      else []) := by
  by_cases h4 : 4 ≤ r.work_pressure <;>
    by_cases h5 : 5 ≤ r.work_pressure <;>
      simp [ruleWorkPressure, pyGet, toRawData, pyGE, List.lookup, h4, h5]

/-- Study-satisfaction rule on a validated request. -/
theorem ruleStudySatisfaction_typed (r : RawAnswers) :
    ruleStudySatisfaction (toRawData r) = some
      (if r.study_satisfaction ≤ 2 then
        [{ factor := "Low Study Satisfaction",
           value := .num r.study_satisfaction,
           impact := "Medium",
           description := "Study satisfaction level of " ++
             pyRepr (.num r.study_satisfaction) ++
             "/5 indicates dissatisfaction with academic life" }]
      else []) := by
  by_cases h : r.study_satisfaction ≤ 2 <;>
    simp [ruleStudySatisfaction, pyGet, toRawData, pyLE, List.lookup, h]

/-- Job-satisfaction rule on a validated request. -/
theorem ruleJobSatisfaction_typed (r : RawAnswers) :
    ruleJobSatisfaction (toRawData r) = some
      (if r.job_satisfaction ≤ 2 then
        if 0 < r.job_satisfaction then
          [{ factor := "Low Job Satisfaction",
             value := .num r.job_satisfaction,
             impact := "Medium",
             description := "Job satisfaction level of " ++
               pyRepr (.num r.job_satisfaction) ++
               "/5 indicates workplace dissatisfaction" }]
        else []
      else []) := by
  by_cases h1 : r.job_satisfaction ≤ 2 <;>
    by_cases h2 : 0 < r.job_satisfaction <;>
      simp [ruleJobSatisfaction, pyGet, toRawData, pyLE, pyGT,
        List.lookup, h1, h2]

/-- CGPA rule on a validated request. -/
theorem ruleCgpa_typed (r : RawAnswers) :
    ruleCgpa (toRawData r) = some
      (if r.cgpa < 6.0 then
        [{ factor := "Low Academic Performance",
           value := .num r.cgpa,
           impact := "Medium",
           description := "CGPA of " ++ pyRepr (.num r.cgpa) ++
             " may indicate academic struggles affecting mental health" }]
      else []) := by
  by_cases h : r.cgpa < 6.0 <;>
    simp [ruleCgpa, pyGet, toRawData, pyLT, List.lookup, h]

/-- On a validated request no rule raises: the analyzer output is the
concatenation of the ten rule emissions in source order. -/
theorem analyze_risk_factors_typed (r : RawAnswers) :
    analyze_risk_factors (toRawData r) =
      (if 4 ≤ r.academic_pressure then
        [{ factor := "High Academic Pressure",
           value := .num r.academic_pressure,
           impact := if 5 ≤ r.academic_pressure then "High" else "Medium",
           description := "Academic pressure level of " ++
             pyRepr (.num r.academic_pressure) ++
             "/5 indicates significant stress" }]
      else []) ++
      (if 4 ≤ r.financial_stress then
        [{ factor := "High Financial Stress",
           value := .num r.financial_stress,
           impact := if 5 ≤ r.financial_stress then "High" else "Medium",
           description := "Financial stress level of " ++
             pyRepr (.num r.financial_stress) ++
             "/5 indicates significant financial pressure" }]
      else []) ++
      (if r.sleep_duration == "Less than 5 hours" ||
          r.sleep_duration == "5-6 hours" then
        [{ factor := "Insufficient Sleep",
           value := .str r.sleep_duration,
           impact := if r.sleep_duration == "Less than 5 hours"
                     then "High" else "Medium",
           description := "Sleep duration of " ++
             pyRepr (.str r.sleep_duration) ++
             " may contribute to mental health issues" }]
      else []) ++
      (if r.dietary_habits == "Unhealthy" then
        [{ factor := "Unhealthy Diet",
           value := .str r.dietary_habits,
           impact := "Medium",
           description := "Unhealthy dietary habits may negatively impact mental health" }]
      else []) ++
      (if r.suicidal_thoughts == "Yes" then
        [{ factor := "History of Suicidal Thoughts",
           value := .str r.suicidal_thoughts,
           impact := "Critical",
           description := "Previous suicidal thoughts indicate high risk and require immediate attention" }]
      else []) ++
      (if r.family_history == "Yes" then
        [{ factor := "Family History of Mental Illness",
           value := .str r.family_history,
           impact := "Medium",
           description := "Family history of mental illness increases risk of developing similar conditions" }]
      else []) ++
      (if 4 ≤ r.work_pressure then
        [{ factor := "High Work Pressure",
           value := .num r.work_pressure,
           impact := if 5 ≤ r.work_pressure then "High" else "Medium",
           description := "Work pressure level of " ++
             pyRepr (.num r.work_pressure) ++
             "/5 indicates significant workplace stress" }]
      else []) ++
      (if r.study_satisfaction ≤ 2 then
        [{ factor := "Low Study Satisfaction",
           value := .num r.study_satisfaction,
           impact := "Medium",
           description := "Study satisfaction level of " ++
             pyRepr (.num r.study_satisfaction) ++
             "/5 indicates dissatisfaction with academic life" }]
      else []) ++
      (if r.job_satisfaction ≤ 2 then
        if 0 < r.job_satisfaction then
          [{ factor := "Low Job Satisfaction",
             value := .num r.job_satisfaction,
             impact := "Medium",
             description := "Job satisfaction level of " ++
               pyRepr (.num r.job_satisfaction) ++
               "/5 indicates workplace dissatisfaction" }]
        else []
      else []) ++
      (if r.cgpa < 6.0 then
        [{ factor := "Low Academic Performance",
           value := .num r.cgpa,
           impact := "Medium",
           description := "CGPA of " ++ pyRepr (.num r.cgpa) ++
             " may indicate academic struggles affecting mental health" }]
      else []) := by
  simp [analyze_risk_factors, analyzeCore, risk_rules, runRules,
    ruleAcademic_typed, ruleFinancialStress_typed, ruleSleep_typed,
    ruleDiet_typed, ruleSuicidal_typed, ruleFamilyHistory_typed,
    ruleWorkPressure_typed, ruleStudySatisfaction_typed,
    ruleJobSatisfaction_typed, ruleCgpa_typed]

/-- C4: for every validated request, the analyzer output restricted to the
suicidal-thoughts factor is exactly one Critical-impact factor when
suicidal_thoughts is "Yes" and empty otherwise, regardless of every other
field. -/
theorem suicidal_always_critical (r : RawAnswers) :
    (analyze_risk_factors (toRawData r)).filter
        (fun f => f.factor == "History of Suicidal Thoughts") =
      if r.suicidal_thoughts == "Yes" then
        [{ factor := "History of Suicidal Thoughts",
           value := .str r.suicidal_thoughts,
           impact := "Critical",
           description := "Previous suicidal thoughts indicate high risk and require immediate attention" }]
      else [] := by
  rw [analyze_risk_factors_typed]
  simp [List.filter_append,
    apply_ite (List.filter
      (fun f : RiskFactor => f.factor == "History of Suicidal Thoughts"))]

/-- C7: on the fixed scenario the analyzer emits exactly six factors, in
source order and with the stated severities, and in general the emitted
factor names always follow the fixed rule order. -/
theorem scenario_factor_order :
    ((analyze_risk_factors (toRawData scenario_input)).map
        (fun f => (f.factor, f.impact)) =
      [("High Academic Pressure", "High"), ("High Financial Stress", "High"),
       ("Insufficient Sleep", "High"), ("Unhealthy Diet", "Medium"),
       ("History of Suicidal Thoughts", "Critical"),
       ("Family History of Mental Illness", "Medium")]) ∧
    (∀ data : RawData,
      ((analyze_risk_factors data).map RiskFactor.factor).Sublist
        factor_order) := by
  constructor
  · rw [analyze_risk_factors_typed]
    norm_num [scenario_input]
  · intro data
    cases h : analyzeCore data with
    | none => simp [analyze_risk_factors, h]
    | some l =>
      simpa [analyze_risk_factors, h] using
        runRules_factors_sublist data risk_rules factor_order
          (risk_rules_forall data) l h

/-- The raw dict of the C9 counterexample: an uncomparable academic
pressure together with an affirmative suicidal-thoughts answer. -/
def abortScenario : RawData :=
  [("academic_pressure", PyVal.str "five"),
   ("suicidal_thoughts", PyVal.str "Yes")]

/-- C9 counterexample: a failure in the first rule aborts the others: the
suicidal-thoughts rule alone would emit its Critical factor on this input,
yet the analyzer discards everything and returns the empty list. -/
theorem rule_failure_aborts_others :
    analyze_risk_factors abortScenario = [] ∧
    ruleSuicidal abortScenario = some
      [{ factor := "History of Suicidal Thoughts",
         value := .str "Yes",
         impact := "Critical",
         description := "Previous suicidal thoughts indicate high risk and require immediate attention" }] := by
  constructor <;> rfl

/-- C9 amended: on any internal error the analyzer does not raise: the
whole analysis (including factors already emitted by earlier rules) is
discarded and the empty sequence is returned. -/
theorem analyzer_error_returns_empty (data : RawData)
    (h : analyzeCore data = none) :
    analyze_risk_factors data = [] := by
  simp [analyze_risk_factors, h]

/-- Witness for the amended C9 at the concrete aborting input. -/
theorem analyzer_error_returns_empty_witness :
    analyzeCore abortScenario = none ∧
    analyze_risk_factors abortScenario = [] :=
  ⟨by rfl, analyzer_error_returns_empty abortScenario (by rfl)⟩

/-- Python `pat in s` substring test. -/
def strContains (s pat : String) : Bool :=
  decide (List.IsInfix pat.toList s.toList)

/-- Probability-band seed recommendations of `generate_recommendations`
(preprocessor.py lines 277-295). -/
def probability_band_recs (probability : ℚ) : List String :=
  if probability > 0.7 then
    ["Seek immediate professional help from a mental health counselor or therapist",
     "Consider reaching out to a trusted friend or family member for support",
     "Contact a mental health helpline if you\x27re in crisis"]
  else if probability > 0.4 then
    ["Consider speaking with a mental health professional for assessment",
     "Focus on stress management techniques and self-care",
     "Maintain regular sleep and exercise routines"]
  else
    ["Continue maintaining good mental health practices",
     "Stay connected with friends and family",
     "Engage in activities you enjoy"]

/-- Per-factor recommendation pairs keyed by substring match on the factor
name, elif chain in source order (preprocessor.py lines 298-335). -/
def factor_recs (factor : String) : List String :=
  if strContains factor "Academic Pressure" then
    ["Consider academic counseling or tutoring to manage study stress",
     "Break down large assignments into smaller, manageable tasks"]
  else if strContains factor "Financial Stress" then
    ["Seek financial counseling or speak with a financial advisor",
     "Look into scholarships, grants, or part-time work opportunities"]
  else if strContains factor "Sleep" then
    ["Establish a consistent sleep schedule and bedtime routine",
     "Avoid screens 1 hour before bedtime and create a relaxing environment"]
  else if strContains factor "Diet" then
    ["Focus on a balanced diet with regular meals",
     "Consider consulting a nutritionist for dietary guidance"]
  else if strContains factor "Suicidal Thoughts" then
    ["URGENT: Contact a mental health professional immediately",
     "Call a suicide prevention hotline if you\x27re in crisis"]
  else if strContains factor "Family History" then
    ["Be aware of your family history and monitor your mental health regularly",
     "Consider preventive mental health counseling"]
  else if strContains factor "Work Pressure" then
    ["Discuss workload with your supervisor or academic advisor",
     "Practice time management and delegation techniques"]
  else if strContains factor "Satisfaction" then
    ["Explore new interests or hobbies to increase life satisfaction",
     "Consider career counseling or academic guidance"]
  else if strContains factor "Academic Performance" then
    ["Seek academic support services or tutoring",
     "Meet with academic advisors to discuss study strategies"]
  else []

/-- The accumulated `recommendations` list before deduplication
(preprocessor.py lines 274-335): seed band then the factor loop in order.
The `data` argument is carried but, as in the source, never read. -/
def raw_recommendations (data : RawData) (probability : ℚ)
    (risk_factors : List RiskFactor) : List String :=
  probability_band_recs probability ++
    (risk_factors.map (fun rf => factor_recs rf.factor)).flatten

/-- The dedup loop of `generate_recommendations` (preprocessor.py lines
337-343): keep the first occurrence of each string, tracking a `seen` set. -/
def dedupAux : List String → List String → List String
  | _, [] => []
  | seen, x :: xs =>
    if x ∈ seen then dedupAux seen xs
    else x :: dedupAux (x :: seen) xs

/-- `DataPreprocessor.generate_recommendations` (preprocessor.py lines
262-345): accumulate, deduplicate preserving first-seen order, then
truncate to 10. -/
def generate_recommendations (data : RawData) (probability : ℚ)
    (risk_factors : List RiskFactor) : List String :=
  (dedupAux [] (raw_recommendations data probability risk_factors)).take 10

/-- The dedup loop output has no duplicates and avoids the seen set. -/
theorem dedupAux_nodup : ∀ (l seen : List String),
    (dedupAux seen l).Nodup ∧ ∀ a ∈ dedupAux seen l, a ∉ seen := by
  intro l
  induction l with
  | nil => intro seen; simp [dedupAux]
  | cons x xs ih =>
    intro seen
    by_cases hx : x ∈ seen
    · simpa [dedupAux, hx] using ih seen
    · obtain ⟨hnd, hmem⟩ := ih (x :: seen)
      refine ⟨?_, ?_⟩
      · simp only [dedupAux, hx, if_false, List.nodup_cons]
        exact ⟨fun hc => (hmem x hc) (by simp), hnd⟩
      · intro a ha
        simp only [dedupAux, hx, if_false, List.mem_cons] at ha
        rcases ha with rfl | ha
        · exact hx
        · exact fun hc => (hmem a ha) (by simp [hc])

/-- The dedup loop output is a sublist of its input, so first-seen order is
preserved. -/
theorem dedupAux_sublist : ∀ (l seen : List String),
    List.Sublist (dedupAux seen l) l := by
  intro l
  induction l with
  | nil => intro seen; simp [dedupAux]
  | cons x xs ih =>
    intro seen
    by_cases hx : x ∈ seen
    · simp only [dedupAux, hx, if_true]
      exact (ih seen).trans (List.sublist_cons_self x xs)
    · simp only [dedupAux, hx, if_false]
      exact List.Sublist.cons₂ x (ih (x :: seen))

/-- C5: for every raw input, probability and factor list the recommendation
output has at most 10 entries, no duplicate strings, preserves first-seen
order (it is an order-preserving sublist of the accumulated list), and is
truncated only after deduplication (its length is the minimum of 10 and the
number of distinct accumulated entries). -/
theorem recommendations_bounded (data : RawData) (probability : ℚ)
    (risk_factors : List RiskFactor) :
    (generate_recommendations data probability risk_factors).length ≤ 10 ∧
    (generate_recommendations data probability risk_factors).Nodup ∧
    List.Sublist (generate_recommendations data probability risk_factors)
      (raw_recommendations data probability risk_factors) ∧
    (generate_recommendations data probability risk_factors).length =
      min 10 (dedupAux [] (raw_recommendations data probability risk_factors)).length := by
  refine ⟨List.length_take_le 10 _, ?_, ?_, ?_⟩
  · exact List.Nodup.sublist (List.take_sublist 10 _)
      (dedupAux_nodup (raw_recommendations data probability risk_factors) []).1
  · exact (List.take_sublist 10 _).trans
      (dedupAux_sublist (raw_recommendations data probability risk_factors) [])
  · simp [generate_recommendations, List.length_take]

/-- `MentalHealthPredictor.predict` up to the external model invocation
(predictor.py lines 138-162): raises only when model or scaler is unloaded;
the feature vector is assembled by the adapter itself, walking
`feature_columns` in order and substituting `0.0` (with a logged warning)
for any feature absent from the processed dict. The scaled transform and
the classifier call act on the assembled vector and are external artifacts
outside this repository. -/
def predict (model_loaded scaler_loaded : Bool) (fc : List String)
    (processed_data : RawData) : Except String (List PyVal) :=
  if !model_loaded || !scaler_loaded then
    .error "Model or scaler not loaded"
  else
    .ok (fc.map (fun feature =>
      (List.lookup feature processed_data).getD (.num 0)))

/-- C2 counterexample: a processed dict missing every feature the
classifier expects does not make `predict` fail: the adapter assembles the
all-defaults vector and proceeds to prediction. -/
theorem missing_features_no_error :
    predict true true feature_columns [] =
      .ok (List.replicate 15 (PyVal.num 0)) := by
  rfl

/-- C2 amended: with model and scaler loaded, `predict` never fails on a
feature-count or feature-order mismatch: it itself builds the vector in the
contract's order and length, defaulting every missing feature to `0.0`. -/
theorem adapter_defaults_missing_features (fc : List String)
    (processed_data : RawData) :
    ∃ v, predict true true fc processed_data = .ok v ∧
      v.length = fc.length ∧
      (∀ feature ∈ fc, List.lookup feature processed_data = none →
        PyVal.num 0 ∈ v) := by
  refine ⟨_, rfl, by simp, ?_⟩
  intro feature hf hnone
  exact List.mem_map.mpr ⟨feature, hf, by simp [hnone]⟩

/-- Witness for the amended C2 at the model's own feature list and an
empty processed dict. -/
theorem adapter_defaults_missing_features_witness :
    ∃ v, predict true true feature_columns [] = .ok v ∧
      v.length = feature_columns.length ∧
      (∀ feature ∈ feature_columns, List.lookup feature ([] : RawData) = none →
        PyVal.num 0 ∈ v) :=
  adapter_defaults_missing_features feature_columns []

/-- Confidence label of the `diagnose` endpoint (main.py line 196). -/
def confidence (probability : ℚ) : String :=
  if probability > 0.8 ∨ probability < 0.2 then "High"
  else if probability > 0.6 ∨ probability < 0.4 then "Medium"
  else "Low"

/-- Risk-level label of the `diagnose` endpoint (main.py line 199). -/
def risk_level (probability : ℚ) : String :=
  if probability > 0.7 then "High"
  else if probability > 0.4 then "Medium"
  else "Low"

/-- C3: over the whole probability range the confidence label follows the
High / Medium / Low band predicate, the risk level is High above 0.7,
Medium on (0.4, 0.7] and Low otherwise, and the three sample points 0.71,
0.85 and 0.5 land as claimed. -/
theorem probability_band_labels (p : ℚ) (h0 : 0 ≤ p) (h1 : p ≤ 1) :
    (confidence p = if p > 0.8 ∨ p < 0.2 then "High"
      else if p > 0.6 ∨ p < 0.4 then "Medium" else "Low") ∧
    (risk_level p = if p > 0.7 then "High"
      else if 0.4 < p ∧ p ≤ 0.7 then "Medium" else "Low") ∧
    risk_level 0.71 = "High" ∧ confidence 0.71 = "Medium" ∧
    risk_level 0.85 = "High" ∧ confidence 0.85 = "High" ∧
    risk_level 0.5 = "Medium" ∧ confidence 0.5 = "Low" := by
  refine ⟨rfl, ?_, by norm_num [risk_level], by norm_num [confidence],
    by norm_num [risk_level], by norm_num [confidence],
    by norm_num [risk_level], by norm_num [confidence]⟩
  by_cases h7 : p > 0.7
  · simp [risk_level, h7]
  · by_cases h4 : p > 0.4
    · simp [risk_level, h7, h4, le_of_not_lt h7]
    · simp [risk_level, h7, h4]

/-- Witness for C3 at probability one half. -/
theorem probability_band_labels_witness :
    ((0 : ℚ) ≤ 0.5 ∧ (0.5 : ℚ) ≤ 1) ∧
    ((confidence 0.5 = if (0.5 : ℚ) > 0.8 ∨ (0.5 : ℚ) < 0.2 then "High"
        else if (0.5 : ℚ) > 0.6 ∨ (0.5 : ℚ) < 0.4 then "Medium" else "Low") ∧
      (risk_level 0.5 = if (0.5 : ℚ) > 0.7 then "High"
        else if 0.4 < (0.5 : ℚ) ∧ (0.5 : ℚ) ≤ 0.7 then "Medium" else "Low") ∧
      risk_level 0.71 = "High" ∧ confidence 0.71 = "Medium" ∧
      risk_level 0.85 = "High" ∧ confidence 0.85 = "High" ∧
      risk_level 0.5 = "Medium" ∧ confidence 0.5 = "Low") :=
  ⟨by norm_num, probability_band_labels 0.5 (by norm_num) (by norm_num)⟩
